import Mathlib

/-!
Verification of the farming-game backend (`src/backend/main.py`, `src/backend/db.py`).

The embedding models the aggregate state of a single player (the spec's §5
concurrency model: no operation spans players), with the HTTP/ORM layer
stripped.  Each endpoint becomes a pure function `PlayerState → Except String
PlayerState`, where `.error detail` mirrors `raise HTTPException(400, detail)`
(which leaves the player state unchanged: in every handler the raise happens
before any mutation is committed).  Plots are addressed by index into the
player's plot list; an out-of-range index models both a nonexistent plot id
and a plot owned by another player (`plot.owner != user`), which the code
rejects identically.  Wall-clock time is an integer number of seconds passed
explicitly as `now`; `datetime` arithmetic becomes integer arithmetic.

`exp_to_next_level` in the source is `int(200 * 1.15 ** (level - 1))`; it is
embedded as the exact-arithmetic value `200 * 23^(level-1) / 20^(level-1)`
(natural-number division computes the floor of the exact rational
`200 · 1.15^(level-1)`), the idealisation of the float expression.
-/

/-- One row of `ITEM_CONFIG` (main.py lines 30-37).  `grow_time` and `stages`
are optional because seed entries lack them; the code reads them with
`.get("grow_time", 30)` / `.get("stages", 1)`. -/
structure ItemInfo where
  buy_price : Int
  sell_price : Int
  xp : Nat
  grow_time : Option Int
  stages : Option Nat
deriving DecidableEq

/-- `ITEM_CONFIG` (main.py lines 30-37); `ITEM_CONFIG.get(name)` is the
`Option`-valued lookup. -/
def ITEM_CONFIG (name : String) : Option ItemInfo :=
  if name = "carrot_seed" then some ⟨10, 5, 0, none, none⟩
  else if name = "carrot" then some ⟨20, 2000, 10, some 60, some 3⟩
  else if name = "potato_seed" then some ⟨20, 15, 0, none, none⟩
  else if name = "potato" then some ⟨40, 35, 20, some 90, some 3⟩
  else if name = "wheat_seed" then some ⟨30, 25, 0, none, none⟩
  else if name = "wheat" then some ⟨60, 500, 300, some 120, some 4⟩
  else none

/-- `exp_to_next_level` (main.py lines 39-42): `int(200 * 1.15**(level-1))`,
embedded exactly as `⌊200 · (23/20)^(level-1)⌋ = 200·23^(level-1) / 20^(level-1)`
in natural-number division. -/
def exp_to_next_level (level : Nat) : Nat :=
  200 * 23 ^ (level - 1) / 20 ^ (level - 1)

lemma exp_to_next_level_ge (level : Nat) : 200 ≤ exp_to_next_level level := by
  unfold exp_to_next_level
  rw [Nat.le_div_iff_mul_le (Nat.pos_pow_of_pos _ (by norm_num))]
  calc 200 * 20 ^ (level - 1) ≤ 200 * 23 ^ (level - 1) := by
        exact Nat.mul_le_mul_left _ (Nat.pow_le_pow_left (by norm_num) _)
    _ = 200 * 23 ^ (level - 1) := rfl

lemma exp_to_next_level_pos (level : Nat) : 0 < exp_to_next_level level :=
  lt_of_lt_of_le (by norm_num) (exp_to_next_level_ge level)

/-- The level-normalisation loop shared by `calculate_level` (main.py lines
44-49) and `add_experience` (lines 166-172):
`while xp >= exp_to_next_level(level): xp -= ...; level += 1`.
Returns the final `(xp, level)` pair. -/
def levelLoop (xp level : Nat) : Nat × Nat :=
  if h : exp_to_next_level level ≤ xp then
    levelLoop (xp - exp_to_next_level level) (level + 1)
  else (xp, level)
termination_by xp
decreasing_by
  have h200 := exp_to_next_level_ge level
  omega

/-- The same loop with an explicit iteration bound (`none` = bound exhausted
before the loop exited); used to state that the source loop terminates. -/
def levelLoopFuel : Nat → Nat → Nat → Option (Nat × Nat)
  | 0, _, _ => none
  | fuel + 1, xp, level =>
    if exp_to_next_level level ≤ xp then
      levelLoopFuel fuel (xp - exp_to_next_level level) (level + 1)
    else some (xp, level)

lemma levelLoopFuel_complete :
    ∀ fuel xp level, xp < fuel → levelLoopFuel fuel xp level = some (levelLoop xp level) := by
  intro fuel
  induction fuel with
  | zero => intro xp level h; omega
  | succ n ih =>
    intro xp level h
    rw [levelLoop.eq_def]
    by_cases hc : exp_to_next_level level ≤ xp
    · have h200 := exp_to_next_level_ge level
      rw [levelLoopFuel, if_pos hc, dif_pos hc]
      exact ih _ _ (by omega)
    · rw [levelLoopFuel, if_neg hc, dif_neg hc]

/-- `calculate_level` (main.py lines 44-49). -/
def calculate_level (xp : Nat) : Nat :=
  (levelLoop xp 1).2

/-- One plot row (db.py lines 22-28): nullable `crop` and `planted_at`. -/
structure Plot where
  crop : Option String
  planted_at : Option Int
deriving DecidableEq

/-- The aggregate state of one player: the `users` row (db.py lines 11-19)
plus their plots and inventory rows.  `gold` and `xp` defaults come from
db.py; the `level` and `unlocked_plots` columns are referenced by main.py but
absent from db.py, so their defaults (level 1, four initial plots) are
modelled from the spec (§3: "level 1, and a default number of unlocked plots
(4 or 6)"; §8 scenario: "new player starts with default gold (e.g., 1000) and
4 plots").  Inventory is the list of `(item_name, quantity)` rows; a lookup
takes the first matching row, as `query(...).first()` does. -/
structure PlayerState where
  gold : Int
  xp : Nat
  level : Nat
  unlocked_plots : Nat
  plots : List Plot
  inventory : List (String × Int)
deriving DecidableEq

/-- Mutating the first inventory row matching `name` by `delta`, creating the
row at quantity `0 + delta` if absent — the shared pattern of plant (line
159), harvest (lines 198-202), and buy (lines 226-230). -/
def invUpdate : List (String × Int) → String → Int → List (String × Int)
  | [], name, delta => [(name, delta)]
  | (n, q) :: rest, name, delta =>
    if n = name then (n, q + delta) :: rest
    else (n, q) :: invUpdate rest name delta

/-- `add_experience` (main.py lines 166-172): add `amount` to the stored xp
field, then run the normalisation loop on (xp, level). -/
def add_experience (s : PlayerState) (amount : Nat) : PlayerState :=
  let p := levelLoop (s.xp + amount) s.level
  { s with xp := p.1, level := p.2 }

/-- `plant` (main.py lines 147-163).  Checks plot existence/ownership, then
the seed row `f"{crop}_seed"` (absent or quantity < 1 → "Not enough seeds"),
then unconditionally overwrites the plot's `crop` and `planted_at` — the
source has no emptiness check. -/
def plant (s : PlayerState) (plotIdx : Nat) (crop : String) (now : Int) :
    Except String PlayerState :=
  match s.plots[plotIdx]? with
  | none => .error "Invalid user or plot"
  | some _ =>
    let seed_name := crop ++ "_seed"
    match List.lookup seed_name s.inventory with
    | none => .error "Not enough seeds"
    | some q =>
      if q < 1 then .error "Not enough seeds"
      else
        .ok { s with
          inventory := invUpdate s.inventory seed_name (-1),
          plots := s.plots.set plotIdx ⟨some crop, some now⟩ }

/-- `harvest` (main.py lines 181-207).  The outer `Option` models a Python
crash: when `plot.crop` is set but `plot.planted_at` is `None`, line 194
(`plot.planted_at + timedelta(...)`) raises a `TypeError`; that case is
`none`.  All defined outcomes are `some`. -/
def harvest (s : PlayerState) (plotIdx : Nat) (now : Int) :
    Option (Except String PlayerState) :=
  match s.plots[plotIdx]? with
  | none => some (.error "Nothing to harvest")
  | some plot =>
    match plot.crop with
    | none => some (.error "Nothing to harvest")
    | some crop_name =>
      match ITEM_CONFIG crop_name with
      | none => some (.error "Invalid crop")
      | some info =>
        let grow_time := info.grow_time.getD 30
        match plot.planted_at with
        | none => none
        | some t =>
          if now < t + grow_time then
            some (.error "Crop not yet ready to harvest")
          else
            let s1 := add_experience s info.xp
            some (.ok { s1 with
              inventory := invUpdate s1.inventory crop_name 1,
              plots := s1.plots.set plotIdx ⟨none, none⟩ })

/-- `buy_item` (main.py lines 215-232).  No validation of `quantity`. -/
def buy_item (s : PlayerState) (item_name : String) (quantity : Int) :
    Except String PlayerState :=
  match ITEM_CONFIG item_name with
  | none => .error "Invalid user or item"
  | some info =>
    let total_cost := info.buy_price * quantity
    if s.gold < total_cost then .error "Not enough gold"
    else
      .ok { s with
        gold := s.gold - total_cost,
        inventory := invUpdate s.inventory item_name quantity }

/-- `sell_item` (main.py lines 239-251).  Unknown item, missing inventory row
and short quantity all raise the same "Invalid sell request". -/
def sell_item (s : PlayerState) (item_name : String) (quantity : Int) :
    Except String PlayerState :=
  match ITEM_CONFIG item_name, List.lookup item_name s.inventory with
  | some info, some q =>
    if q < quantity then .error "Invalid sell request"
    else
      .ok { s with
        inventory := invUpdate s.inventory item_name (-quantity),
        gold := s.gold + info.sell_price * quantity }
  | _, _ => .error "Invalid sell request"

/-- `calc_upgrade_cost` (main.py lines 261-262). -/
def calc_upgrade_cost (current_plots : Int) : Int :=
  200 * (current_plots - 3) ^ 2

/-- `get_max_plots_by_level` (main.py lines 264-286), the literal `if/elif`
chain including the final `else: return 19` fallback. -/
def get_max_plots_by_level (level : Nat) : Nat :=
  if level ≤ 2 then 4
  else if level ≤ 4 then 5
  else if level ≤ 6 then 6
  else if level ≤ 8 then 7
  else if level ≤ 10 then 8
  else if level ≤ 12 then 9
  else if level ≤ 14 then 10
  else if level ≤ 16 then 11
  else if level ≤ 18 then 12
  else if level ≤ 20 then 13
  else if level ≤ 22 then 14
  else if level ≤ 25 then 15
  else if level ≤ 28 then 16
  else if level ≤ 31 then 17
  else if level ≤ 34 then 18
  else if level ≤ 36 then 19
  else if level = 37 then 20
  else if level = 40 then 21
  else if level = 43 then 22
  else if level = 47 then 23
  else if 50 ≤ level then 24
  else 19

/-- `upgrade_land` (main.py lines 288-316). -/
def upgrade_land (s : PlayerState) : Except String PlayerState :=
  let max_allowed := get_max_plots_by_level s.level
  if s.unlocked_plots ≥ max_allowed then .error "等级未达或土地已满"
  else
    let cost := calc_upgrade_cost (Int.ofNat s.unlocked_plots + 1)
    if s.gold < cost then .error ("金币不足，需要 " ++ toString cost ++ " 金币")
    else
      .ok { s with
        gold := s.gold - cost,
        unlocked_plots := s.unlocked_plots + 1,
        plots := s.plots ++ [⟨none, none⟩] }

/-- A freshly registered player (register, main.py lines 56-68; defaults from
db.py and, for the columns missing there, from the spec — see `PlayerState`). -/
def initState : PlayerState :=
  { gold := 1000, xp := 0, level := 1, unlocked_plots := 4,
    plots := List.replicate 4 ⟨none, none⟩, inventory := [] }

/-- The player-mutating market/farm operations quantified over in the
reachable-state claims. -/
inductive Op where
  | buy (item : String) (quantity : Int)
  | sell (item : String) (quantity : Int)
  | harvest (plotIdx : Nat) (now : Int)
  | upgrade
deriving DecidableEq

/-- Apply one operation; an error response (or a crash) leaves the state
unchanged, as every `HTTPException` in the source is raised before any
mutation is committed. -/
def applyOp (s : PlayerState) : Op → PlayerState
  | .buy item q =>
    match buy_item s item q with
    | .ok s1 => s1
    | .error _ => s
  | .sell item q =>
    match sell_item s item q with
    | .ok s1 => s1
    | .error _ => s
  | .harvest idx now =>
    match harvest s idx now with
    | some (.ok s1) => s1
    | _ => s
  | .upgrade =>
    match upgrade_land s with
    | .ok s1 => s1
    | .error _ => s

/-- Run a whole request sequence. -/
def applyOps (s : PlayerState) (ops : List Op) : PlayerState :=
  ops.foldl applyOp s

/-- `True` unless the operation is a `sell` with a negative quantity. -/
def opOk : Op → Bool
  | .sell _ q => decide (0 ≤ q)
  | _ => true

lemma levelLoop_level_le (xp level : Nat) : level ≤ (levelLoop xp level).2 := by
  induction xp using Nat.strong_induction_on generalizing level with
  | _ xp ih =>
    rw [levelLoop.eq_def]
    split
    · next h =>
      have h200 := exp_to_next_level_ge level
      exact Nat.le_of_succ_le (ih _ (by omega) (level + 1))
    · exact Nat.le_refl level

lemma levelLoop_xp_lt (xp level : Nat) :
    (levelLoop xp level).1 < exp_to_next_level (levelLoop xp level).2 := by
  induction xp using Nat.strong_induction_on generalizing level with
  | _ xp ih =>
    rw [levelLoop.eq_def]
    split
    · next h =>
      have h200 := exp_to_next_level_ge level
      exact ih _ (by omega) (level + 1)
    · next h =>
      simp only
      omega

lemma levelLoop_eval {xp level a b : Nat}
    (h : levelLoopFuel (xp + 1) xp level = some (a, b)) :
    levelLoop xp level = (a, b) := by
  have h2 := levelLoopFuel_complete (xp + 1) xp level (Nat.lt_succ_self xp)
  rw [h] at h2
  exact (Option.some.inj h2).symm

/-- Claim C2: evaluation of `get_max_plots_by_level` at the table's gap
levels.  Level 37 yields 20 plots, but every undefined level between the late
breakpoints (38, 39, 41, 42, 44-46, 48, 49) falls through to the `else: 19`
fallback rather than carrying the last defined breakpoint forward, so the
function regresses below its value at level 37 and is not non-decreasing. -/
theorem C2_max_plots_regresses :
    get_max_plots_by_level 37 = 20 ∧ get_max_plots_by_level 38 = 19 ∧
    get_max_plots_by_level 39 = 19 ∧ get_max_plots_by_level 41 = 19 ∧
    get_max_plots_by_level 42 = 19 ∧ get_max_plots_by_level 44 = 19 ∧
    get_max_plots_by_level 45 = 19 ∧ get_max_plots_by_level 46 = 19 ∧
    get_max_plots_by_level 48 = 19 ∧ get_max_plots_by_level 49 = 19 ∧
    get_max_plots_by_level 38 < get_max_plots_by_level 37 := by
  decide

/-- Claim C3: the stored `xp` field is not monotonically non-decreasing.  A
player at level 1 with stored xp 199 who is granted 10 xp (as a harvest
would) ends with stored xp 9: `add_experience` subtracts the level-up
requirement from the field (it stores xp-into-level, although db.py documents
the column as cumulative experience). -/
theorem C3_xp_field_decreases :
    (add_experience { initState with xp := 199 } 10).xp = 9 ∧
    (add_experience { initState with xp := 199 } 10).level = 2 ∧
    (add_experience { initState with xp := 199 } 10).xp < 199 := by
  have h : levelLoop (199 + 10) 1 = (9, 2) := levelLoop_eval (by decide)
  refine ⟨?_, ?_, ?_⟩
  · show (levelLoop (199 + 10) 1).1 = 9
    rw [h]
  · show (levelLoop (199 + 10) 1).2 = 2
    rw [h]
  · show (levelLoop (199 + 10) 1).1 < 199
    rw [h]
    norm_num

/-- Claim C9: for a non-negative grant applied to a normalized player state
(stored xp below the current level's requirement), `add_experience` never
decreases the level, and afterwards the stored xp is strictly below the
requirement of the resulting level. -/
theorem C9_add_experience_normalizes (s : PlayerState) (amount : Nat)
    (h : s.xp < exp_to_next_level s.level) :
    s.level ≤ (add_experience s amount).level ∧
    (add_experience s amount).xp <
      exp_to_next_level (add_experience s amount).level :=
  ⟨levelLoop_level_le (s.xp + amount) s.level,
   levelLoop_xp_lt (s.xp + amount) s.level⟩

/-- Witness for C9 at a concrete normalized player. -/
theorem C9_witness :
    (({ initState with xp := 50 } : PlayerState).xp <
       exp_to_next_level ({ initState with xp := 50 } : PlayerState).level) ∧
    (({ initState with xp := 50 } : PlayerState).level ≤
       (add_experience { initState with xp := 50 } 10).level ∧
     (add_experience { initState with xp := 50 } 10).xp <
       exp_to_next_level (add_experience { initState with xp := 50 } 10).level) :=
  ⟨by decide, C9_add_experience_normalizes { initState with xp := 50 } 10 (by decide)⟩

/-- Claim C10: the level-normalisation loop terminates on every input.  The
per-level requirement is at least 200 (hence strictly positive) for every
level, so each iteration strictly decreases xp; consequently the bounded
loop `levelLoopFuel` already exits within `xp + 1` iterations, agreeing with
the loop `levelLoop` (shared by `calculate_level` and `add_experience`). -/
theorem C10_level_loop_terminates :
    (∀ level, 200 ≤ exp_to_next_level level) ∧
    (∀ xp level, levelLoopFuel (xp + 1) xp level = some (levelLoop xp level)) ∧
    (∀ xp, (levelLoopFuel (xp + 1) xp 1).map Prod.snd = some (calculate_level xp)) := by
  refine ⟨exp_to_next_level_ge,
    fun xp level => levelLoopFuel_complete _ _ _ (Nat.lt_succ_self xp),
    fun xp => ?_⟩
  rw [levelLoopFuel_complete _ _ _ (Nat.lt_succ_self xp)]
  rfl

lemma ITEM_CONFIG_prices_nonneg {name : String} {info : ItemInfo}
    (h : ITEM_CONFIG name = some info) :
    0 ≤ info.buy_price ∧ 0 ≤ info.sell_price := by
  unfold ITEM_CONFIG at h
  repeat' split at h
  all_goals first
  | exact Option.noConfusion h
  | (injection h with h2; subst h2; exact ⟨by norm_num, by norm_num⟩)

/-- Claim C1 (counterexample): planting on a plot that already holds a
growing carrot does not fail with an AlreadyPlanted error — with one potato
seed in stock it succeeds, overwrites the plot's crop and planting
timestamp, and consumes the seed. -/
theorem C1_plant_overwrites_cex :
    plant { gold := 1000, xp := 0, level := 1, unlocked_plots := 4,
            plots := [⟨some "carrot", some 0⟩],
            inventory := [("potato_seed", 2)] } 0 "potato" 50 =
      .ok { gold := 1000, xp := 0, level := 1, unlocked_plots := 4,
            plots := [⟨some "potato", some 50⟩],
            inventory := [("potato_seed", 1)] } := by
  rfl

/-- Claim C1 (amended): `plant` performs no emptiness check.  On any plot —
in particular one that already has a crop planted — with a matching seed row
of quantity ≥ 1, plant succeeds, overwriting the plot's crop and planting
timestamp and decrementing the seed quantity by one. -/
theorem C1_plant_ignores_planted_state (s : PlayerState) (plotIdx : Nat)
    (crop : String) (now : Int) (plot : Plot) (q : Int)
    (hplot : s.plots[plotIdx]? = some plot) (hcrop : plot.crop.isSome = true)
    (hseed : List.lookup (crop ++ "_seed") s.inventory = some q) (hq : 1 ≤ q) :
    plant s plotIdx crop now =
      .ok { s with inventory := invUpdate s.inventory (crop ++ "_seed") (-1),
                   plots := s.plots.set plotIdx ⟨some crop, some now⟩ } := by
  simp only [plant, hplot, hseed]
  rw [if_neg (by omega : ¬ q < 1)]

/-- Witness for C1 at a concrete already-planted plot. -/
theorem C1_witness :
    (({ gold := 1000, xp := 0, level := 1, unlocked_plots := 4,
        plots := [⟨some "wheat", some 3⟩],
        inventory := [("wheat_seed", 1)] } : PlayerState).plots[0]? =
       some ⟨some "wheat", some 3⟩) ∧
    ((⟨some "wheat", some 3⟩ : Plot).crop.isSome = true) ∧
    (List.lookup ("wheat" ++ "_seed")
       ({ gold := 1000, xp := 0, level := 1, unlocked_plots := 4,
          plots := [⟨some "wheat", some 3⟩],
          inventory := [("wheat_seed", 1)] } : PlayerState).inventory = some 1) ∧
    plant { gold := 1000, xp := 0, level := 1, unlocked_plots := 4,
            plots := [⟨some "wheat", some 3⟩],
            inventory := [("wheat_seed", 1)] } 0 "wheat" 9 =
      .ok { gold := 1000, xp := 0, level := 1, unlocked_plots := 4,
            inventory := invUpdate [("wheat_seed", 1)] ("wheat" ++ "_seed") (-1),
            plots := ([⟨some "wheat", some 3⟩] : List Plot).set 0 ⟨some "wheat", some 9⟩ } := by
  refine ⟨rfl, rfl, rfl, ?_⟩
  exact C1_plant_ignores_planted_state
    { gold := 1000, xp := 0, level := 1, unlocked_plots := 4,
      plots := [⟨some "wheat", some 3⟩], inventory := [("wheat_seed", 1)] }
    0 "wheat" 9 ⟨some "wheat", some 3⟩ 1 rfl rfl rfl (by norm_num)

/-- Claim C5 (counterexample): a buy call with quantity -1 completes as a
successful purchase, credits the player 10 gold (1000 → 1010) and stores a
negative inventory quantity — `buy_item` never validates the quantity. -/
theorem C5_buy_negative_quantity_cex :
    buy_item initState "carrot_seed" (-1) =
      .ok { initState with gold := 1010, inventory := [("carrot_seed", -1)] } ∧
    (1010 : Int) ≠ initState.gold := by
  exact ⟨rfl, by decide⟩

/-- Claim C5 (amended): `buy_item` accepts any quantity ≤ 0: for a catalog
item and a player with non-negative gold the call completes successfully,
moves gold to `gold - buy_price·quantity` (never below the original
balance), and adds the non-positive quantity to the inventory row. -/
theorem C5_buy_accepts_nonpositive_quantity (s : PlayerState) (item : String)
    (info : ItemInfo) (q : Int) (hcfg : ITEM_CONFIG item = some info)
    (hq : q ≤ 0) (hg : 0 ≤ s.gold) :
    buy_item s item q =
      .ok { s with gold := s.gold - info.buy_price * q,
                   inventory := invUpdate s.inventory item q } ∧
    s.gold ≤ s.gold - info.buy_price * q := by
  have hb := (ITEM_CONFIG_prices_nonneg hcfg).1
  have h1 : info.buy_price * q ≤ 0 := mul_nonpos_iff.mpr (Or.inl ⟨hb, hq⟩)
  constructor
  · simp only [buy_item, hcfg]
    rw [if_neg (not_lt.mpr (h1.trans hg))]
  · linarith

/-- Witness for C5 at a concrete player and item. -/
theorem C5_witness :
    ITEM_CONFIG "potato_seed" = some ⟨20, 15, 0, none, none⟩ ∧
    ((-2 : Int) ≤ 0) ∧ ((0 : Int) ≤ initState.gold) ∧
    (buy_item initState "potato_seed" (-2) =
      .ok { initState with
            gold := initState.gold - (⟨20, 15, 0, none, none⟩ : ItemInfo).buy_price * (-2),
            inventory := invUpdate initState.inventory "potato_seed" (-2) } ∧
     initState.gold ≤ initState.gold - (⟨20, 15, 0, none, none⟩ : ItemInfo).buy_price * (-2)) :=
  ⟨rfl, by norm_num, by decide,
   C5_buy_accepts_nonpositive_quantity initState "potato_seed" ⟨20, 15, 0, none, none⟩ (-2)
     rfl (by norm_num) (by decide)⟩

/-- Claim C6 (counterexample): `plant` never consults the catalog.  Invoked
with the crop name "acorn", which has no `ITEM_CONFIG` entry, it does not
fail with an unknown-item error: in a state holding an "acorn_seed" row it
succeeds, plants the unconfigured crop and consumes the seed. -/
theorem C6_plant_unknown_crop_cex :
    ITEM_CONFIG "acorn" = none ∧
    plant { gold := 1000, xp := 0, level := 1, unlocked_plots := 4,
            plots := [⟨none, none⟩], inventory := [("acorn_seed", 1)] }
        0 "acorn" 5 =
      .ok { gold := 1000, xp := 0, level := 1, unlocked_plots := 4,
            plots := [⟨some "acorn", some 5⟩],
            inventory := [("acorn_seed", 0)] } :=
  ⟨rfl, rfl⟩

/-- Claim C6 (amended): buy, sell and harvest each reject an item/crop name
that has no catalog entry with a defined error (`Invalid user or item`,
`Invalid sell request`, `Invalid crop`), returning no new state; `plant`
however never performs a catalog lookup (see the counterexample). -/
theorem C6_unknown_item_rejected (s : PlayerState) (name : String) (q : Int)
    (idx : Nat) (now : Int) (plot : Plot)
    (hcfg : ITEM_CONFIG name = none)
    (hplot : s.plots[idx]? = some plot) (hcrop : plot.crop = some name) :
    buy_item s name q = .error "Invalid user or item" ∧
    sell_item s name q = .error "Invalid sell request" ∧
    harvest s idx now = some (.error "Invalid crop") := by
  refine ⟨?_, ?_, ?_⟩
  · simp only [buy_item, hcfg]
  · simp only [sell_item, hcfg]
  · simp only [harvest, hplot, hcrop, hcfg]

/-- Witness for C6 at a concrete state with an unconfigured crop planted. -/
theorem C6_witness :
    ITEM_CONFIG "apple" = none ∧
    (({ gold := 1000, xp := 0, level := 1, unlocked_plots := 4,
        plots := [⟨some "apple", some 0⟩],
        inventory := [] } : PlayerState).plots[0]? = some ⟨some "apple", some 0⟩) ∧
    ((⟨some "apple", some 0⟩ : Plot).crop = some "apple") ∧
    (buy_item { gold := 1000, xp := 0, level := 1, unlocked_plots := 4,
                plots := [⟨some "apple", some 0⟩], inventory := [] } "apple" 3 =
       .error "Invalid user or item" ∧
     sell_item { gold := 1000, xp := 0, level := 1, unlocked_plots := 4,
                 plots := [⟨some "apple", some 0⟩], inventory := [] } "apple" 3 =
       .error "Invalid sell request" ∧
     harvest { gold := 1000, xp := 0, level := 1, unlocked_plots := 4,
               plots := [⟨some "apple", some 0⟩], inventory := [] } 0 7 =
       some (.error "Invalid crop")) := by
  refine ⟨rfl, rfl, rfl, ?_⟩
  exact C6_unknown_item_rejected
    { gold := 1000, xp := 0, level := 1, unlocked_plots := 4,
      plots := [⟨some "apple", some 0⟩], inventory := [] }
    "apple" 3 0 7 ⟨some "apple", some 0⟩ rfl rfl rfl

/-- Claim C7 (counterexample): a read does distinguish an absent inventory
row from one kept at quantity zero.  Selling quantity 0 of "carrot" fails
with an error when the row is absent, but completes successfully when the
row exists with quantity 0 — same request, different outcomes. -/
theorem C7_sell_zero_vs_absent_cex :
    sell_item initState "carrot" 0 = .error "Invalid sell request" ∧
    sell_item { initState with inventory := [("carrot", 0)] } "carrot" 0 =
      .ok { initState with inventory := [("carrot", 0)] } :=
  ⟨rfl, rfl⟩

/-- Claim C7 (amended): absent and zero-quantity rows are read identically by
`plant` (always: both yield the seed error, or the plot error when the plot
is invalid) and by `sell_item` for requested quantities ≥ 1 (both yield the
same error); for sell quantities ≤ 0 the two states differ (see the
counterexample). -/
theorem C7_absent_equals_zero_for_reads (s : PlayerState) (name : String)
    (q : Int) (idx : Nat) (now : Int) (crop : String)
    (hq : 1 ≤ q)
    (hinv : List.lookup name s.inventory = none ∨
            List.lookup name s.inventory = some 0)
    (hseed : crop ++ "_seed" = name) :
    sell_item s name q = .error "Invalid sell request" ∧
    plant s idx crop now =
      (s.plots[idx]?).elim (.error "Invalid user or plot")
        (fun _ => .error "Not enough seeds") := by
  constructor
  · rcases hinv with h | h <;> cases hc : ITEM_CONFIG name
    · simp only [sell_item, hc]
    · simp only [sell_item, hc, h]
    · simp only [sell_item, hc]
    · simp only [sell_item, hc, h]
      rw [if_pos (by omega : (0 : Int) < q)]
  · subst hseed
    rcases hinv with h | h <;> cases hp : s.plots[idx]?
    · simp only [plant, hp, h, Option.elim]
    · simp only [plant, hp, h, Option.elim]
    · simp only [plant, hp, h, Option.elim]
    · simp only [plant, hp, h, Option.elim]
      rw [if_pos (by norm_num : (0 : Int) < 1)]

/-- Witness for C7 at a concrete state with no "carrot_seed" row. -/
theorem C7_witness :
    ((1 : Int) ≤ 1) ∧
    (List.lookup "carrot_seed" initState.inventory = none ∨
     List.lookup "carrot_seed" initState.inventory = some 0) ∧
    ("carrot" ++ "_seed" = "carrot_seed") ∧
    (sell_item initState "carrot_seed" 1 = .error "Invalid sell request" ∧
     plant initState 0 "carrot" 0 =
       (initState.plots[0]?).elim (.error "Invalid user or plot")
         (fun _ => .error "Not enough seeds")) := by
  refine ⟨by norm_num, Or.inl rfl, rfl, ?_⟩
  exact C7_absent_equals_zero_for_reads initState "carrot_seed" 1 0 0 "carrot"
    (by norm_num) (Or.inl rfl) rfl

/-- Claim C8 (counterexample): the not-ready rejection does not report the
remaining seconds.  With a carrot (grow_time 60) planted at time 0, harvest
at time 0 (60 s remaining) and at time 1 (59 s remaining) return the
identical fixed error payload "Crop not yet ready to harvest". -/
theorem C8_notready_constant_message_cex :
    harvest { gold := 1000, xp := 0, level := 1, unlocked_plots := 4,
              plots := [⟨some "carrot", some 0⟩], inventory := [] } 0 0 =
      some (.error "Crop not yet ready to harvest") ∧
    harvest { gold := 1000, xp := 0, level := 1, unlocked_plots := 4,
              plots := [⟨some "carrot", some 0⟩], inventory := [] } 0 1 =
      some (.error "Crop not yet ready to harvest") ∧
    (60 - 0 : Int) ≠ 60 - 1 :=
  ⟨rfl, rfl, by decide⟩

/-- Claim C8 (amended): for every planted plot with a catalog crop, harvest
fails — with the fixed message "Crop not yet ready to harvest", which does
not carry the remaining seconds — exactly when the elapsed time since
planting is strictly less than the crop's grow time, and harvest at elapsed
time exactly equal to the grow time succeeds. -/
theorem C8_harvest_boundary (s : PlayerState) (idx : Nat) (now : Int)
    (plot : Plot) (crop : String) (info : ItemInfo) (t : Int)
    (hplot : s.plots[idx]? = some plot) (hcrop : plot.crop = some crop)
    (hcfg : ITEM_CONFIG crop = some info) (ht : plot.planted_at = some t) :
    (now - t < info.grow_time.getD 30 ↔
      harvest s idx now = some (.error "Crop not yet ready to harvest")) ∧
    (now - t = info.grow_time.getD 30 →
      ∃ s1, harvest s idx now = some (.ok s1)) := by
  have hh : harvest s idx now =
      (if now < t + info.grow_time.getD 30 then
        some (.error "Crop not yet ready to harvest")
      else
        some (.ok { add_experience s info.xp with
          inventory := invUpdate (add_experience s info.xp).inventory crop 1,
          plots := (add_experience s info.xp).plots.set idx ⟨none, none⟩ })) := by
    simp only [harvest, hplot, hcrop, hcfg, ht]
  constructor
  · constructor
    · intro hlt
      rw [hh, if_pos (by omega)]
    · intro he
      by_contra hge
      rw [hh, if_neg (by omega)] at he
      simp at he
  · intro heq
    refine ⟨{ add_experience s info.xp with
        inventory := invUpdate (add_experience s info.xp).inventory crop 1,
        plots := (add_experience s info.xp).plots.set idx ⟨none, none⟩ }, ?_⟩
    rw [hh, if_neg (by omega)]

/-- Witness for C8 at a planted carrot, harvested exactly at grow time. -/
theorem C8_witness :
    (({ gold := 1000, xp := 50, level := 1, unlocked_plots := 4,
        plots := [⟨some "carrot", some 10⟩],
        inventory := [] } : PlayerState).plots[0]? =
       some ⟨some "carrot", some 10⟩) ∧
    ((⟨some "carrot", some 10⟩ : Plot).crop = some "carrot") ∧
    (ITEM_CONFIG "carrot" = some ⟨20, 2000, 10, some 60, some 3⟩) ∧
    ((⟨some "carrot", some 10⟩ : Plot).planted_at = some 10) ∧
    ((70 - 10 < (⟨20, 2000, 10, some 60, some 3⟩ : ItemInfo).grow_time.getD 30 ↔
       harvest { gold := 1000, xp := 50, level := 1, unlocked_plots := 4,
                 plots := [⟨some "carrot", some 10⟩], inventory := [] } 0 70 =
         some (.error "Crop not yet ready to harvest")) ∧
     (70 - 10 = (⟨20, 2000, 10, some 60, some 3⟩ : ItemInfo).grow_time.getD 30 →
       ∃ s1, harvest { gold := 1000, xp := 50, level := 1, unlocked_plots := 4,
                       plots := [⟨some "carrot", some 10⟩], inventory := [] } 0 70 =
         some (.ok s1))) := by
  refine ⟨rfl, rfl, rfl, rfl, ?_⟩
  exact C8_harvest_boundary
    { gold := 1000, xp := 50, level := 1, unlocked_plots := 4,
      plots := [⟨some "carrot", some 10⟩], inventory := [] }
    0 70 ⟨some "carrot", some 10⟩ "carrot" ⟨20, 2000, 10, some 60, some 3⟩ 10
    rfl rfl rfl rfl

lemma buy_item_gold {s s1 : PlayerState} {item : String} {q : Int}
    (h : buy_item s item q = .ok s1) (hg : 0 ≤ s.gold) : 0 ≤ s1.gold := by
  simp only [buy_item] at h
  split at h
  · exact absurd h (by simp)
  · split at h
    · exact absurd h (by simp)
    · next hlt =>
      injection h with h2
      subst h2
      have := not_lt.mp hlt
      dsimp only
      linarith

lemma sell_item_gold {s s1 : PlayerState} {item : String} {q : Int}
    (h : sell_item s item q = .ok s1) (hg : 0 ≤ s.gold) (hq : 0 ≤ q) :
    0 ≤ s1.gold := by
  simp only [sell_item] at h
  split at h
  · next info q0 hcfg hlook =>
    split at h
    · exact absurd h (by simp)
    · injection h with h2
      subst h2
      have hsp := (ITEM_CONFIG_prices_nonneg hcfg).2
      have := mul_nonneg hsp hq
      dsimp only
      linarith
  · exact absurd h (by simp)

lemma upgrade_land_gold {s s1 : PlayerState} (h : upgrade_land s = .ok s1)
    (hg : 0 ≤ s.gold) : 0 ≤ s1.gold := by
  simp only [upgrade_land] at h
  split at h
  · exact absurd h (by simp)
  · split at h
    · exact absurd h (by simp)
    · next hlt =>
      injection h with h2
      subst h2
      have := not_lt.mp hlt
      dsimp only
      linarith

lemma harvest_ok_gold {s s1 : PlayerState} {idx : Nat} {now : Int}
    (h : harvest s idx now = some (.ok s1)) : s1.gold = s.gold := by
  simp only [harvest] at h
  split at h
  · simp at h
  · split at h
    · simp at h
    · split at h
      · simp at h
      · split at h
        · simp at h
        · split at h
          · simp at h
          · simp only [Option.some.injEq, Except.ok.injEq] at h
            subst h
            rfl

/-- Claim C4 (counterexample): gold is not non-negative in every reachable
state.  From a freshly registered player, buying one carrot seed and then
calling sell with quantity -1000 (an arbitrary integer argument the code
accepts, since the held quantity 1 is ≥ -1000) leaves gold = 990 + 5·(-1000)
= -4010 < 0. -/
theorem C4_negative_gold_cex :
    (applyOps initState
      [Op.buy "carrot_seed" 1, Op.sell "carrot_seed" (-1000)]).gold = -4010 ∧
    (applyOps initState
      [Op.buy "carrot_seed" 1, Op.sell "carrot_seed" (-1000)]).gold < 0 :=
  ⟨rfl, by decide⟩

lemma applyOp_gold_nonneg (s : PlayerState) (op : Op) (hg : 0 ≤ s.gold)
    (hop : opOk op = true) : 0 ≤ (applyOp s op).gold := by
  cases op with
  | buy item q =>
    simp only [applyOp]
    cases h : buy_item s item q with
    | ok s1 => exact buy_item_gold h hg
    | error e => exact hg
  | sell item q =>
    simp only [opOk, decide_eq_true_eq] at hop
    simp only [applyOp]
    cases h : sell_item s item q with
    | ok s1 => exact sell_item_gold h hg hop
    | error e => exact hg
  | harvest idx now =>
    simp only [applyOp]
    cases h : harvest s idx now with
    | none => exact hg
    | some r =>
      cases r with
      | ok s1 => exact (harvest_ok_gold h) ▸ hg
      | error e => exact hg
  | upgrade =>
    simp only [applyOp]
    cases h : upgrade_land s with
    | ok s1 => exact upgrade_land_gold h hg
    | error e => exact hg

lemma applyOps_gold_nonneg (ops : List Op) (s : PlayerState) (hg : 0 ≤ s.gold)
    (hops : ∀ op ∈ ops, opOk op = true) : 0 ≤ (applyOps s ops).gold := by
  induction ops generalizing s with
  | nil => exact hg
  | cons op rest ih =>
    exact ih (applyOp s op) (applyOp_gold_nonneg s op hg (hops op (by simp)))
      (fun o ho => hops o (by simp [ho]))

/-- Claim C4 (amended): starting from a freshly registered player, every
sequence of buy (any integer quantity), sell with non-negative quantity,
harvest, and upgrade_land operations keeps gold ≥ 0; only a sell with a
negative quantity argument can drive gold below zero (see the
counterexample). -/
theorem C4_gold_nonneg_without_negative_sells (ops : List Op)
    (hops : ∀ op ∈ ops, opOk op = true) :
    0 ≤ (applyOps initState ops).gold :=
  applyOps_gold_nonneg ops initState (by decide) hops

/-- Witness for C4 on a concrete request sequence. -/
theorem C4_witness :
    (∀ op ∈ [Op.buy "carrot_seed" 3, Op.sell "carrot_seed" 2,
             Op.harvest 0 99, Op.upgrade], opOk op = true) ∧
    0 ≤ (applyOps initState
          [Op.buy "carrot_seed" 3, Op.sell "carrot_seed" 2,
           Op.harvest 0 99, Op.upgrade]).gold :=
  ⟨by decide, C4_gold_nonneg_without_negative_sells _ (by decide)⟩
